import Mathlib

/-!
Verification of the NPCC climate-policy backend.

The HTTP layer lives in `app.py`; the arithmetic core (`PolicyEngine`,
imported from `backend.core.engine`) is not part of the sources, so its
calculation is modelled from the specification (fixed per-unit cost and
temperature-mitigation coefficients per policy lever, a $1000B bankruptcy
threshold, a treemap of cost percentages and an efficiency index of
mitigation per dollar).  The route handlers for `/api/calculate` and
`/api/news` are embedded directly from `app.py`, with the external
generative-AI call abstracted as a sequence of outcomes.
-/

namespace NPCC

/-- The eight policy-lever keys, in the order `app.py` reads them
(lines 103-110). -/
def categoryKey : Fin 8 → String
  | 0 => "ev_adoption"
  | 1 => "renewable_energy"
  | 2 => "carbon_tax"
  | 3 => "reforestation"
  | 4 => "public_transport"
  | 5 => "industrial_controls"
  | 6 => "green_buildings"
  | 7 => "waste_management"

/-- A JSON-object body: an association list from keys to numbers. -/
abbrev PolicyInput := List (String × ℚ)

/-- Modelled from the spec: `PolicyEngine` (file `backend/core/engine.py`,
absent from the sources) multiplies each policy lever by "a fixed per-unit
cost coefficient and a fixed per-unit temperature-mitigation coefficient".
The two coefficient tables are the engine's fixed parameters. -/
structure EngineParams where
  costCoef : Fin 8 → ℚ
  mitCoef : Fin 8 → ℚ

/-- Reading one lever from the input record, defaulting to 0 when the key
is absent (as the `data.get(key, 0)` reads in `app.py` do). -/
def getLever (inp : PolicyInput) (k : String) : ℚ :=
  (inp.lookup k).getD 0

/-- The eight lever levels of an input record. -/
def levers (inp : PolicyInput) : Fin 8 → ℚ :=
  fun i => getLever inp (categoryKey i)

/-- Modelled from the spec: the fiscal cost of one category is its lever
level times the category's fixed per-unit cost coefficient. -/
def categoryCost (p : EngineParams) (lv : Fin 8 → ℚ) (i : Fin 8) : ℚ :=
  lv i * p.costCoef i

/-- Modelled from the spec: the temperature contribution of one category is
its lever level times the fixed per-unit temperature-mitigation
coefficient. -/
def categoryMit (p : EngineParams) (lv : Fin 8 → ℚ) (i : Fin 8) : ℚ :=
  lv i * p.mitCoef i

/-- Modelled from the spec: "costs sum into a total fiscal cost". -/
def totalCostOf (p : EngineParams) (lv : Fin 8 → ℚ) : ℚ :=
  ((List.finRange 8).map (categoryCost p lv)).sum

/-- Modelled from the spec: "mitigations sum ... into a temperature-change
figure". -/
def totalMitOf (p : EngineParams) (lv : Fin 8 → ℚ) : ℚ :=
  ((List.finRange 8).map (categoryMit p lv)).sum

/-- The fixed bankruptcy threshold, $1000B. -/
def bankruptcyThreshold : ℚ := 1000

/-- One slice of the fiscal treemap: a category's cost and its share of the
total cost. -/
structure TreemapEntry where
  name : String
  cost : ℚ
  percentage : ℚ
deriving DecidableEq

/-- One row of the efficiency index: mitigation per dollar spent on the
category. -/
structure EfficiencyEntry where
  policy : String
  efficiency : ℚ
deriving DecidableEq

/-- One row of the per-policy breakdown list. -/
structure BreakdownEntry where
  policy : String
  cost : ℚ
  mitigation : ℚ
deriving DecidableEq

/-- The impact record produced by a calculation. -/
structure ImpactResult where
  total_cost : ℚ
  temperature_mitigation : ℚ
  bankruptcy_flag : Bool
  policy_breakdown : List BreakdownEntry
  fiscal_treemap : List TreemapEntry
  efficiency_index : List EfficiencyEntry
deriving DecidableEq

/-- Modelled from the spec: the single-pass calculation over the eight
lever levels — total cost against the bankruptcy threshold, summed
mitigation, breakdown list, "a treemap allocation (percentage of total cost
per category)" and "an efficiency index (mitigation per dollar spent)",
with the divisions guarded so the all-zero input succeeds. -/
def impactFromLevers (p : EngineParams) (lv : Fin 8 → ℚ) : ImpactResult :=
  let T := totalCostOf p lv
  { total_cost := T
    temperature_mitigation := totalMitOf p lv
    bankruptcy_flag := decide (T > bankruptcyThreshold)
    policy_breakdown :=
      (List.finRange 8).map fun i =>
        ⟨categoryKey i, categoryCost p lv i, categoryMit p lv i⟩
    fiscal_treemap :=
      if T = 0 then []
      else
        ((List.finRange 8).filter fun i => decide (categoryCost p lv i ≠ 0)).map
          fun i => ⟨categoryKey i, categoryCost p lv i,
                    categoryCost p lv i / T * 100⟩
    efficiency_index :=
      ((List.finRange 8).filter fun i => decide (0 < categoryCost p lv i)).map
        fun i => ⟨categoryKey i, categoryMit p lv i / categoryCost p lv i⟩ }

/-- Modelled from the spec: `PolicyEngine.calculate_impacts` consumes a
policy-input record and produces the impact record; it reads only the
eight lever keys. -/
def calculate_impacts (p : EngineParams) (inp : PolicyInput) : ImpactResult :=
  impactFromLevers p (levers inp)

/-- The cost-coefficient table of a concrete engine instance: the three
cost coefficients named by the tests (EV adoption 1.2 = 6/5, renewable
energy 2.5 = 5/2, reforestation 0.6 = 3/5) and a placeholder 1 for the
five the sources do not fix. -/
def specCost : Fin 8 → ℚ
  | 0 => 6/5
  | 1 => 5/2
  | 2 => 1
  | 3 => 3/5
  | _ => 1

/-- A strictly negative mitigation coefficient per category, for the
concrete engine instance. -/
def specMit : Fin 8 → ℚ := fun _ => -1/100

/-- A concrete engine-parameter table used to instantiate theorems. -/
def specParams : EngineParams := ⟨specCost, specMit⟩

/-! ## The HTTP handlers of `app.py` -/

/-- Response of `POST /api/calculate` (`app.py` lines 55-83). -/
structure CalcResponse where
  status : Nat
  success : Bool
  error : Option String
  data : Option ImpactResult
deriving DecidableEq

/-- `calculate_policy_impact` (`app.py` lines 55-83): a falsy parsed body
(absent, or the empty object) yields 400 "Missing policy inputs"; otherwise
the engine runs on the body.  The engine is a parameter so that its
non-invocation on the error path is expressible. -/
def calculate_policy_impact (engine : PolicyInput → ImpactResult)
    (body : Option PolicyInput) : CalcResponse :=
  match body with
  | none => ⟨400, false, some ("Missing policy inputs"), none⟩
  | some inp =>
      if inp.isEmpty then ⟨400, false, some ("Missing policy inputs"), none⟩
      else ⟨200, true, none, some (engine inp)⟩

/-- Python strings viewed as sequences of characters. -/
abbrev Str := List Char

/-- The double-quote character. -/
def dqChar : Char := Char.ofNat 34

/-- The single-quote character. -/
def sqChar : Char := Char.ofNat 39

/-- Python `s.startswith(c)` for a one-character pattern `c`. -/
def startsWithQ (s : Str) (c : Char) : Bool :=
  match s with
  | [] => false
  | a :: _ => a == c

/-- Python `s.endswith(c)` for a one-character pattern `c`. -/
def endsWithQ (s : Str) (c : Char) : Bool :=
  startsWithQ s.reverse c

/-- Python `s[1:-1]`: everything but the first and last character. -/
def stripEnds (s : Str) : Str :=
  (s.drop 1).dropLast

/-- Python `s.strip()`: remove leading and trailing whitespace. -/
def trimWS (s : Str) : Str :=
  ((s.dropWhile Char.isWhitespace).reverse.dropWhile Char.isWhitespace).reverse

/-- The quote-removal step of `generate_news_headline` (`app.py` lines
150-153): strip one pair of double quotes if the headline both starts and
ends with one, then likewise one pair of single quotes. -/
def stripQuotes (h : Str) : Str :=
  let h1 := if startsWithQ h dqChar && endsWithQ h dqChar then stripEnds h else h
  if startsWithQ h1 sqChar && endsWithQ h1 sqChar then stripEnds h1 else h1

/-- Response of `POST /api/news` (`app.py` lines 86-178). -/
structure NewsResponse where
  status : Nat
  success : Bool
  error : Option String
  headline : Option Str
deriving DecidableEq

/-- `generate_news_headline` (`app.py` lines 86-178): falsy body yields
400; otherwise the external generative-AI service is consulted — its
successive outcomes are abstracted as `attempts`, and the handler issues
exactly one call, `attempts 0`.  A raised exception is surfaced at once as
a 500 with "AI generation failed: " plus the message; a successful text is
whitespace-trimmed and quote-stripped. -/
def generate_news_headline (body : Option PolicyInput)
    (attempts : ℕ → Except String Str) : NewsResponse :=
  match body with
  | none => ⟨400, false, some ("Missing input data"), none⟩
  | some d =>
      if d.isEmpty then ⟨400, false, some ("Missing input data"), none⟩
      else
        match attempts 0 with
        | .error e => ⟨500, false, some ("AI generation failed: " ++ e), none⟩
        | .ok text => ⟨200, true, none, some (stripQuotes (trimWS text))⟩

/-! ## Helper lemmas -/

/-- A sum over the eight categories, written out. -/
lemma sum8 (f : Fin 8 → ℚ) :
    ((List.finRange 8).map f).sum = f 0 + f 1 + f 2 + f 3 + f 4 + f 5 + f 6 + f 7 := by
  rw [← List.ofFn_eq_map, List.sum_ofFn, Fin.sum_univ_eight]

/-- A list sum over the eight categories as a `Finset` sum. -/
lemma sum_finRange_eq_finsetSum (f : Fin 8 → ℚ) :
    ((List.finRange 8).map f).sum = ∑ i, f i := by
  rw [← List.ofFn_eq_map, List.sum_ofFn]

/-- Dropping the zero-valued elements of a list does not change the sum of
its values. -/
lemma sum_map_filter_ne_zero {α : Type} (f : α → ℚ) (l : List α) :
    ((l.filter fun a => decide (f a ≠ 0)).map f).sum = (l.map f).sum := by
  induction l with
  | nil => rfl
  | cons a t ih =>
      simp only [ne_eq, decide_not] at ih ⊢
      by_cases h : f a = 0 <;> simp [List.filter_cons, h, ih]

/-- Multiplying every value by a constant multiplies a list sum by it. -/
lemma sum_map_mul_const {α : Type} (g : α → ℚ) (r : ℚ) (l : List α) :
    (l.map fun a => g a * r).sum = (l.map g).sum * r := by
  induction l with
  | nil => simp
  | cons a t ih => simp [ih, add_mul]

/-- The input record of the bankruptcy-scenario test: EV adoption,
renewable energy and reforestation at 100, everything else absent. -/
def maxInput : PolicyInput :=
  [("ev_adoption", 100), ("renewable_energy", 100), ("reforestation", 100)]

/-- On `maxInput`, an engine with the documented coefficients reports a
total cost of 430. -/
lemma totalCost_maxInput (p : EngineParams) (h0 : p.costCoef 0 = 1.2)
    (h1 : p.costCoef 1 = 2.5) (h3 : p.costCoef 3 = 0.6) :
    totalCostOf p (levers maxInput) = 430 := by
  have l0 : levers maxInput 0 = 100 := rfl
  have l1 : levers maxInput 1 = 100 := rfl
  have l2 : levers maxInput 2 = 0 := rfl
  have l3 : levers maxInput 3 = 100 := rfl
  have l4 : levers maxInput 4 = 0 := rfl
  have l5 : levers maxInput 5 = 0 := rfl
  have l6 : levers maxInput 6 = 0 := rfl
  have l7 : levers maxInput 7 = 0 := rfl
  rw [totalCostOf, sum8]
  simp only [categoryCost, l0, l1, l2, l3, l4, l5, l6, l7]
  rw [h0, h1, h3]
  norm_num

/-- The moderate input used to instantiate theorems: a single lever at
50, everything else absent. -/
def modInput : PolicyInput := [("ev_adoption", 50)]

/-! ## Claims -/

/-- C1: for every policy-input record, the total fiscal cost computed by
`calculate_impacts` is the sum over the eight policy categories of the
lever level (0-100) times that category's fixed per-unit cost coefficient;
and with ev_adoption, renewable_energy and reforestation at 100 and all
other levers 0, the total cost is 100*1.2 + 100*2.5 + 100*0.6 = 430. -/
theorem total_cost_is_sum_of_category_costs (p : EngineParams) (inp : PolicyInput)
    (h0 : p.costCoef 0 = 1.2) (h1 : p.costCoef 1 = 2.5) (h3 : p.costCoef 3 = 0.6) :
    ((calculate_impacts p inp).total_cost =
        levers inp 0 * p.costCoef 0 + levers inp 1 * p.costCoef 1 +
        levers inp 2 * p.costCoef 2 + levers inp 3 * p.costCoef 3 +
        levers inp 4 * p.costCoef 4 + levers inp 5 * p.costCoef 5 +
        levers inp 6 * p.costCoef 6 + levers inp 7 * p.costCoef 7)
      ∧ (calculate_impacts p maxInput).total_cost = 430 := by
  constructor
  · show totalCostOf p (levers inp) = _
    rw [totalCostOf, sum8]
    rfl
  · show totalCostOf p (levers maxInput) = 430
    exact totalCost_maxInput p h0 h1 h3

/-- Witness for C1: the concrete engine instance on the maximal input. -/
theorem total_cost_is_sum_of_category_costs_witness :
    (calculate_impacts specParams maxInput).total_cost = 430 :=
  (total_cost_is_sum_of_category_costs specParams maxInput
    (by norm_num [specParams, specCost]) (by norm_num [specParams, specCost])
    (by norm_num [specParams, specCost])).2

/-- C2: for every policy-input record, the bankruptcy flag is true exactly
when the total fiscal cost exceeds the fixed $1000B threshold; the input
summing to $430B does not trigger it. -/
theorem bankruptcy_flag_iff_cost_exceeds_threshold (p : EngineParams)
    (inp : PolicyInput) (h0 : p.costCoef 0 = 1.2) (h1 : p.costCoef 1 = 2.5)
    (h3 : p.costCoef 3 = 0.6) :
    ((calculate_impacts p inp).bankruptcy_flag = true ↔
        (calculate_impacts p inp).total_cost > 1000)
      ∧ (calculate_impacts p maxInput).bankruptcy_flag = false := by
  constructor
  · show decide (totalCostOf p (levers inp) > bankruptcyThreshold) = true ↔
        totalCostOf p (levers inp) > 1000
    rw [decide_eq_true_eq]
    simp only [bankruptcyThreshold]
  · show decide (totalCostOf p (levers maxInput) > bankruptcyThreshold) = false
    rw [totalCost_maxInput p h0 h1 h3]
    simp only [bankruptcyThreshold]
    norm_num

/-- Witness for C2: the concrete engine instance and the maximal input. -/
theorem bankruptcy_flag_iff_cost_exceeds_threshold_witness :
    (calculate_impacts specParams maxInput).bankruptcy_flag = false :=
  (bankruptcy_flag_iff_cost_exceeds_threshold specParams maxInput
    (by norm_num [specParams, specCost]) (by norm_num [specParams, specCost])
    (by norm_num [specParams, specCost])).2

/-- C3: for every policy-input record, the temperature-change figure is
the sum of the per-category mitigations (lever level times the fixed
per-unit mitigation coefficient); it is 0 when every lever is 0, and
strictly negative (net cooling) when some lever is positive. -/
theorem temperature_change_is_sum_of_mitigations (p : EngineParams)
    (inp : PolicyInput) (hm : ∀ i, p.mitCoef i < 0)
    (hl : ∀ i, 0 ≤ levers inp i) :
    ((calculate_impacts p inp).temperature_mitigation =
        levers inp 0 * p.mitCoef 0 + levers inp 1 * p.mitCoef 1 +
        levers inp 2 * p.mitCoef 2 + levers inp 3 * p.mitCoef 3 +
        levers inp 4 * p.mitCoef 4 + levers inp 5 * p.mitCoef 5 +
        levers inp 6 * p.mitCoef 6 + levers inp 7 * p.mitCoef 7)
      ∧ ((∀ i, levers inp i = 0) →
          (calculate_impacts p inp).temperature_mitigation = 0)
      ∧ ((∃ i, 0 < levers inp i) →
          (calculate_impacts p inp).temperature_mitigation < 0) := by
  refine ⟨?_, ?_, ?_⟩
  · show totalMitOf p (levers inp) = _
    rw [totalMitOf, sum8]
    rfl
  · intro hz
    show totalMitOf p (levers inp) = 0
    rw [totalMitOf, sum8]
    simp [categoryMit, hz]
  · rintro ⟨j, hj⟩
    show totalMitOf p (levers inp) < 0
    rw [totalMitOf, sum_finRange_eq_finsetSum]
    have hlt : ∑ i, categoryMit p (levers inp) i < ∑ _i : Fin 8, (0 : ℚ) := by
      refine Finset.sum_lt_sum (fun i _ => ?_) ⟨j, Finset.mem_univ j, ?_⟩
      · have h1 := hl i
        have h2 := hm i
        show levers inp i * p.mitCoef i ≤ 0
        nlinarith
      · show levers inp j * p.mitCoef j < 0
        exact mul_neg_of_pos_of_neg hj (hm j)
    simpa using hlt

/-- Witness for C3: the concrete engine instance on the moderate input. -/
theorem temperature_change_is_sum_of_mitigations_witness :
    (calculate_impacts specParams modInput).temperature_mitigation < 0 :=
  (temperature_change_is_sum_of_mitigations specParams modInput
    (fun i => by norm_num [specParams, specMit])
    (by decide)).2.2 ⟨0, by decide⟩

/-- On `modInput`, the concrete engine instance reports a total cost of
50 * 1.2 = 60. -/
lemma totalCost_modInput : totalCostOf specParams (levers modInput) = 60 := by
  have l0 : levers modInput 0 = 50 := rfl
  have l1 : levers modInput 1 = 0 := rfl
  have l2 : levers modInput 2 = 0 := rfl
  have l3 : levers modInput 3 = 0 := rfl
  have l4 : levers modInput 4 = 0 := rfl
  have l5 : levers modInput 5 = 0 := rfl
  have l6 : levers modInput 6 = 0 := rfl
  have l7 : levers modInput 7 = 0 := rfl
  rw [totalCostOf, sum8]
  simp only [categoryCost, l0, l1, l2, l3, l4, l5, l6, l7]
  norm_num [specParams, specCost]

/-- C4: for every policy-input record with positive total cost, the
fiscal treemap holds one entry per active (nonzero-cost) category — every
entry belongs to an active category, and every active category's entry is
present — each entry's percentage is that category's cost as a percentage
of the total cost, and the percentages sum to 100. -/
theorem fiscal_treemap_percentages_sum_to_100 (p : EngineParams)
    (inp : PolicyInput) (hT : 0 < (calculate_impacts p inp).total_cost) :
    (∀ e ∈ (calculate_impacts p inp).fiscal_treemap, ∃ i : Fin 8,
        e.name = categoryKey i ∧ e.cost = categoryCost p (levers inp) i ∧
        categoryCost p (levers inp) i ≠ 0 ∧
        e.percentage =
          categoryCost p (levers inp) i / (calculate_impacts p inp).total_cost * 100)
      ∧ (∀ i : Fin 8, categoryCost p (levers inp) i ≠ 0 →
          (⟨categoryKey i, categoryCost p (levers inp) i,
            categoryCost p (levers inp) i /
              (calculate_impacts p inp).total_cost * 100⟩ : TreemapEntry) ∈
            (calculate_impacts p inp).fiscal_treemap)
      ∧ ((calculate_impacts p inp).fiscal_treemap.map TreemapEntry.percentage).sum
          = 100 := by
  have hT' : totalCostOf p (levers inp) ≠ 0 := ne_of_gt hT
  have htm : (calculate_impacts p inp).fiscal_treemap =
      ((List.finRange 8).filter fun i =>
          decide (categoryCost p (levers inp) i ≠ 0)).map
        fun i => ⟨categoryKey i, categoryCost p (levers inp) i,
                  categoryCost p (levers inp) i / totalCostOf p (levers inp) * 100⟩ := by
    show (if totalCostOf p (levers inp) = 0 then [] else _) = _
    rw [if_neg hT']
  refine ⟨?_, ?_, ?_⟩
  · intro e he
    rw [htm] at he
    obtain ⟨i, hi, rfl⟩ := List.mem_map.1 he
    exact ⟨i, rfl, rfl, of_decide_eq_true (List.mem_filter.1 hi).2, rfl⟩
  · intro i hne
    rw [htm]
    exact List.mem_map.2
      ⟨i, List.mem_filter.2 ⟨List.mem_finRange i, decide_eq_true hne⟩, rfl⟩
  · rw [htm, List.map_map]
    have hcomp : (TreemapEntry.percentage ∘ fun i =>
        (⟨categoryKey i, categoryCost p (levers inp) i,
          categoryCost p (levers inp) i / totalCostOf p (levers inp) * 100⟩ :
          TreemapEntry)) =
        fun i => categoryCost p (levers inp) i / totalCostOf p (levers inp) * 100 := rfl
    rw [hcomp]
    have h2 : (fun i : Fin 8 =>
        categoryCost p (levers inp) i / totalCostOf p (levers inp) * 100) =
        fun i => categoryCost p (levers inp) i * (100 / totalCostOf p (levers inp)) := by
      funext i
      ring
    rw [h2, sum_map_mul_const, sum_map_filter_ne_zero]
    have hsum : ((List.finRange 8).map (categoryCost p (levers inp))).sum =
        totalCostOf p (levers inp) := rfl
    rw [hsum, mul_comm]
    exact div_mul_cancel₀ 100 hT'

/-- Witness for C4: the concrete engine instance on the moderate input. -/
theorem fiscal_treemap_percentages_sum_to_100_witness :
    ((calculate_impacts specParams modInput).fiscal_treemap.map
        TreemapEntry.percentage).sum = 100 :=
  (fiscal_treemap_percentages_sum_to_100 specParams modInput
    (by
      show (0 : ℚ) < totalCostOf specParams (levers modInput)
      rw [totalCost_modInput]
      norm_num)).2.2

/-- C5: for every policy-input record and every category with positive
cost, the efficiency index holds exactly the entries pairing the category
with its mitigation divided by the dollars spent on it. -/
theorem efficiency_index_is_mitigation_per_dollar (p : EngineParams)
    (inp : PolicyInput) :
    (∀ e ∈ (calculate_impacts p inp).efficiency_index, ∃ i : Fin 8,
        e.policy = categoryKey i ∧ 0 < categoryCost p (levers inp) i ∧
        e.efficiency =
          categoryMit p (levers inp) i / categoryCost p (levers inp) i)
      ∧ (∀ i : Fin 8, 0 < categoryCost p (levers inp) i →
          (⟨categoryKey i,
            categoryMit p (levers inp) i / categoryCost p (levers inp) i⟩ :
            EfficiencyEntry) ∈ (calculate_impacts p inp).efficiency_index) := by
  have hidx : (calculate_impacts p inp).efficiency_index =
      ((List.finRange 8).filter fun i =>
          decide (0 < categoryCost p (levers inp) i)).map
        fun i => ⟨categoryKey i,
                  categoryMit p (levers inp) i / categoryCost p (levers inp) i⟩ := rfl
  constructor
  · intro e he
    rw [hidx] at he
    obtain ⟨i, hi, rfl⟩ := List.mem_map.1 he
    exact ⟨i, rfl, of_decide_eq_true (List.mem_filter.1 hi).2, rfl⟩
  · intro i hpos
    rw [hidx]
    exact List.mem_map.2
      ⟨i, List.mem_filter.2 ⟨List.mem_finRange i, decide_eq_true hpos⟩, rfl⟩

/-- Witness for C5: EV adoption at level 50 under the concrete engine
instance costs $60B, and its efficiency entry is in the index. -/
theorem efficiency_index_is_mitigation_per_dollar_witness :
    (⟨categoryKey 0,
      categoryMit specParams (levers modInput) 0 /
        categoryCost specParams (levers modInput) 0⟩ : EfficiencyEntry) ∈
      (calculate_impacts specParams modInput).efficiency_index :=
  (efficiency_index_is_mitigation_per_dollar specParams modInput).2 0
    (by
      show (0 : ℚ) < levers modInput 0 * specParams.costCoef 0
      norm_num [show levers modInput 0 = (50 : ℚ) from rfl, specParams, specCost])

/-- C6: on the all-zero input the calculation succeeds with total cost 0,
temperature mitigation 0 and no bankruptcy, and the division-derived
treemap and efficiency index are the guarded empty allocations. -/
theorem all_zero_input_is_total_and_zero (p : EngineParams) (inp : PolicyInput)
    (h : ∀ i, levers inp i = 0) :
    (calculate_impacts p inp).total_cost = 0
      ∧ (calculate_impacts p inp).temperature_mitigation = 0
      ∧ (calculate_impacts p inp).bankruptcy_flag = false
      ∧ (calculate_impacts p inp).fiscal_treemap = []
      ∧ (calculate_impacts p inp).efficiency_index = [] := by
  have hc : ∀ i, categoryCost p (levers inp) i = 0 := fun i => by
    simp [categoryCost, h i]
  have hT : totalCostOf p (levers inp) = 0 := by
    rw [totalCostOf, sum8]
    simp [hc]
  refine ⟨hT, ?_, ?_, ?_, ?_⟩
  · show totalMitOf p (levers inp) = 0
    rw [totalMitOf, sum8]
    simp [categoryMit, h]
  · show decide (totalCostOf p (levers inp) > bankruptcyThreshold) = false
    exact decide_eq_false (by
      simp only [bankruptcyThreshold]
      rw [hT]
      norm_num)
  · show (if totalCostOf p (levers inp) = 0 then [] else _) = ([] : List TreemapEntry)
    rw [if_pos hT]
  · have hnil : ((List.finRange 8).filter fun i =>
        decide (0 < categoryCost p (levers inp) i)) = [] := by
      apply List.filter_eq_nil_iff.2
      intro a _
      simp [hc a]
    show (((List.finRange 8).filter fun i =>
        decide (0 < categoryCost p (levers inp) i)).map _) = []
    rw [hnil]
    rfl

/-- Witness for C6: the empty record under the concrete engine instance. -/
theorem all_zero_input_is_total_and_zero_witness :
    (calculate_impacts specParams []).total_cost = 0
      ∧ (calculate_impacts specParams []).temperature_mitigation = 0
      ∧ (calculate_impacts specParams []).bankruptcy_flag = false
      ∧ (calculate_impacts specParams []).fiscal_treemap = []
      ∧ (calculate_impacts specParams []).efficiency_index = [] :=
  all_zero_input_is_total_and_zero specParams [] (by decide)

/-- C7: the calculation is a pure function of the eight lever keys only:
two input records that agree on those keys produce equal impact records,
extra keys notwithstanding. -/
theorem impacts_depend_only_on_lever_keys (p : EngineParams)
    (a b : PolicyInput)
    (h : ∀ i : Fin 8, getLever a (categoryKey i) = getLever b (categoryKey i)) :
    calculate_impacts p a = calculate_impacts p b := by
  show impactFromLevers p (levers a) = impactFromLevers p (levers b)
  have hlv : levers a = levers b := funext h
  rw [hlv]

/-- An input record carrying an extra, non-lever key. -/
def extraInput : PolicyInput := [("ev_adoption", 50), ("unrelated_key", 99)]

/-- Witness for C7: the extra key is ignored. -/
theorem impacts_depend_only_on_lever_keys_witness :
    calculate_impacts specParams extraInput = calculate_impacts specParams modInput :=
  impacts_depend_only_on_lever_keys specParams extraInput modInput (by decide)

/-- C8: when the external generative-AI call fails, the news endpoint
returns HTTP 500 with success false and the error string "AI generation
failed: " followed by the exception message, and the response depends only
on the first AI outcome — no retry is attempted. -/
theorem news_ai_failure_returns_500_without_retry (d : PolicyInput)
    (hd : d.isEmpty = false) (attempts attempts2 : ℕ → Except String Str)
    (e : String) (he : attempts 0 = .error e) :
    generate_news_headline (some d) attempts =
        ⟨500, false, some ("AI generation failed: " ++ e), none⟩
      ∧ (attempts 0 = attempts2 0 →
          generate_news_headline (some d) attempts =
            generate_news_headline (some d) attempts2) := by
  constructor
  · simp [generate_news_headline, hd, he]
  · intro hh
    simp [generate_news_headline, hd, hh]

/-- Witness for C8: a failing AI call on a nonempty body. -/
theorem news_ai_failure_returns_500_without_retry_witness :
    generate_news_headline (some modInput) (fun _ => .error ("boom")) =
      ⟨500, false, some ("AI generation failed: " ++ "boom"), none⟩ :=
  (news_ai_failure_returns_500_without_retry modInput rfl
    (fun _ => .error ("boom")) (fun _ => .error ("boom")) ("boom") rfl).1

/-- C9: a falsy parsed body — absent, or the empty object — makes
`/api/calculate` return HTTP 400 with success false and error "Missing
policy inputs", and the policy engine is never invoked: the response does
not depend on the engine at all. -/
theorem calculate_rejects_falsy_body (engine engine2 : PolicyInput → ImpactResult)
    (body : Option PolicyInput) (h : body = none ∨ body = some []) :
    calculate_policy_impact engine body =
        ⟨400, false, some ("Missing policy inputs"), none⟩
      ∧ calculate_policy_impact engine body = calculate_policy_impact engine2 body := by
  rcases h with rfl | rfl
  · exact ⟨rfl, rfl⟩
  · exact ⟨rfl, rfl⟩

/-- Witness for C9: the empty object body. -/
theorem calculate_rejects_falsy_body_witness :
    calculate_policy_impact (calculate_impacts specParams) (some []) =
      ⟨400, false, some ("Missing policy inputs"), none⟩ :=
  (calculate_rejects_falsy_body (calculate_impacts specParams)
    (fun _ => calculate_impacts specParams []) (some []) (Or.inr rfl)).1

/-- C10: after trimming, a headline both starting and ending with a double
quote (or with a single quote) has its first and last characters removed
exactly once; a lone quote character becomes the empty string; a headline
quoted on only one side is unchanged. -/
theorem quote_stripping_cases :
    (∀ s : Str, (startsWithQ s dqChar && endsWithQ s dqChar) = true →
        (startsWithQ (stripEnds s) sqChar && endsWithQ (stripEnds s) sqChar) = false →
        stripQuotes s = stripEnds s)
      ∧ (∀ s : Str, (startsWithQ s dqChar && endsWithQ s dqChar) = false →
          (startsWithQ s sqChar && endsWithQ s sqChar) = true →
          stripQuotes s = stripEnds s)
      ∧ stripQuotes [dqChar] = [] ∧ stripQuotes [sqChar] = []
      ∧ (∀ s : Str, (startsWithQ s dqChar && endsWithQ s dqChar) = false →
          (startsWithQ s sqChar && endsWithQ s sqChar) = false →
          stripQuotes s = s) := by
  refine ⟨?_, ?_, by decide, by decide, ?_⟩
  · intro s h1 h2
    simp [stripQuotes, h1, h2]
  · intro s h1 h2
    simp [stripQuotes, h1, h2]
  · intro s h1 h2
    simp [stripQuotes, h1, h2]

/-- Witness for C10: a double-quoted headline loses exactly its outer
quotes. -/
theorem quote_stripping_cases_witness :
    stripQuotes ("\"Hello\"".toList) = stripEnds ("\"Hello\"".toList) :=
  quote_stripping_cases.1 ("\"Hello\"".toList) (by decide) (by decide)

end NPCC
